import Mathlib

/-
Verification of the 2-D Hess-Smith panel method core of the repository
(lib/panels/{types,geometry,influence,solver,stream}.ts).

The embedding works over the exact real numbers: each JavaScript number is
modelled as a real, JavaScript arrays become lists, and in-place array
mutation becomes explicit functional state.  All comparisons on reals are
resolved classically, so definitions in this file are noncomputable but
total; theorems about them are settled by symbolic reasoning.
-/

open Real

namespace Aeronauty

/-- Point2D from types.ts: a plain (x, y) pair of numbers. -/
@[ext]
structure Point2D where
  x : ℝ
  y : ℝ

/-- Vector2D from types.ts has the same shape as Point2D. -/
abbrev Vector2D := Point2D

/-- Panel from types.ts: a directed straight segment with derived data. -/
structure Panel where
  x1 : ℝ
  y1 : ℝ
  x2 : ℝ
  y2 : ℝ
  length : ℝ
  angle : ℝ
  tangent : Vector2D
  normal : Vector2D
  controlPoint : Point2D

/-- Default panel used to model out-of-range JavaScript array reads. -/
def dPanel : Panel :=
  { x1 := 0, y1 := 0, x2 := 0, y2 := 0, length := 0, angle := 0
  , tangent := ⟨0, 0⟩, normal := ⟨0, 0⟩, controlPoint := ⟨0, 0⟩ }

/-- FlowConditions from types.ts (the optional viscosity field is unused). -/
structure FlowConditions where
  velocity : ℝ
  density : ℝ
  angleOfAttack : ℝ

/-- AirfoilGeometry from types.ts. -/
structure AirfoilGeometry where
  points : List Point2D
  panels : List Panel
  chord : ℝ
  teUpperIndex : ℕ
  teLowerIndex : ℕ

/-- PanelMethodParameters from types.ts. -/
structure PanelMethodParameters where
  nPanels : ℕ
  epsilon : ℝ
  regularization : ℝ
  maxIterations : ℕ
  tolerance : ℝ

/-- PanelSolution from types.ts. -/
structure PanelSolution where
  sigma : List ℝ
  gamma : ℝ
  cp : List ℝ
  vt : List ℝ
  clGamma : ℝ
  clPressure : ℝ
  residual : ℝ
  iterations : ℕ

/-- dot from geometry.ts: v1.x * v2.x + v1.y * v2.y. -/
def dot (v1 v2 : Vector2D) : ℝ := v1.x * v2.x + v1.y * v2.y

/-- globalToLocal from geometry.ts: translate to the panel start, then rotate
into the frame whose x-axis lies along the panel. -/
def globalToLocal (globalPoint : Point2D) (panel : Panel) : Point2D :=
  let dx := globalPoint.x - panel.x1
  let dy := globalPoint.y - panel.y1
  let cosB := panel.tangent.x
  let sinB := panel.tangent.y
  ⟨dx * cosB + dy * sinB, -dx * sinB + dy * cosB⟩

/-- localToGlobal from geometry.ts: rotate a panel-local vector back to the
global frame. -/
def localToGlobal (localVector : Vector2D) (panel : Panel) : Vector2D :=
  let cosB := panel.tangent.x
  let sinB := panel.tangent.y
  ⟨localVector.x * cosB - localVector.y * sinB,
   localVector.x * sinB + localVector.y * cosB⟩

/-- SINGULARITY_THRESHOLD from influence.ts. -/
def SINGULARITY_THRESHOLD : ℝ := 1e-10

/-- atan2 with the JavaScript argument order Math.atan2(y, x), modelled as
the complex argument of x + i y (both agree on every quadrant and on the
axes, and both send (0, 0) to 0). -/
noncomputable def atan2 (y x : ℝ) : ℝ := Complex.arg ⟨x, y⟩

open Classical in
/-- sourceInfluence from influence.ts: velocity induced at a field point by a
constant-strength source panel, with the on-panel and endpoint guards. -/
noncomputable def sourceInfluence (fieldPoint : Point2D) (panel : Panel)
    (sourceStrength : ℝ) : Vector2D :=
  let local0 := globalToLocal fieldPoint panel
  let X := local0.x
  let Y := local0.y
  let L := panel.length
  let s1 : ℝ := 0
  let s2 : ℝ := L
  if |Y| < SINGULARITY_THRESHOLD ∧
     (X ≥ -SINGULARITY_THRESHOLD ∧ X ≤ L + SINGULARITY_THRESHOLD) then
    ⟨0, 0⟩
  else
    let R1_sq := X * X + Y * Y
    let R2_sq := (X - L) * (X - L) + Y * Y
    if R1_sq < SINGULARITY_THRESHOLD * SINGULARITY_THRESHOLD ∨
       R2_sq < SINGULARITY_THRESHOLD * SINGULARITY_THRESHOLD then
      ⟨0, 0⟩
    else
      let u_local := (sourceStrength / (2 * π)) *
        (atan2 (s2 * Y) ((X - s2) * (X - s2) + Y * Y) -
         atan2 (s1 * Y) ((X - s1) * (X - s1) + Y * Y))
      let v_local := (sourceStrength / (4 * π)) * Real.log (R2_sq / R1_sq)
      localToGlobal ⟨u_local, v_local⟩ panel

open Classical in
/-- vortexInfluence from influence.ts: velocity induced at a field point by a
constant-strength vortex panel, with the same guards as the source kernel. -/
noncomputable def vortexInfluence (fieldPoint : Point2D) (panel : Panel)
    (vortexStrength : ℝ) : Vector2D :=
  let local0 := globalToLocal fieldPoint panel
  let X := local0.x
  let Y := local0.y
  let L := panel.length
  let s1 : ℝ := 0
  let s2 : ℝ := L
  if |Y| < SINGULARITY_THRESHOLD ∧
     (X ≥ -SINGULARITY_THRESHOLD ∧ X ≤ L + SINGULARITY_THRESHOLD) then
    ⟨0, 0⟩
  else
    let R1_sq := X * X + Y * Y
    let R2_sq := (X - L) * (X - L) + Y * Y
    if R1_sq < SINGULARITY_THRESHOLD * SINGULARITY_THRESHOLD ∨
       R2_sq < SINGULARITY_THRESHOLD * SINGULARITY_THRESHOLD then
      ⟨0, 0⟩
    else
      let u_local := -(vortexStrength / (4 * π)) * Real.log (R2_sq / R1_sq)
      let v_local := (vortexStrength / (2 * π)) *
        (atan2 (s2 * Y) ((X - s2) * (X - s2) + Y * Y) -
         atan2 (s1 * Y) ((X - s1) * (X - s1) + Y * Y))
      localToGlobal ⟨u_local, v_local⟩ panel

/-- Rotation of a plane vector by +90 degrees, used to state the symmetry
between the two kernels. -/
def rot90 (v : Vector2D) : Vector2D := ⟨-v.y, v.x⟩

/-- Claim C5: for every field point, panel and strength, the vortex kernel is
the source kernel rotated by 90 degrees: in panel-local coordinates
(u_vortex, v_vortex) = (-v_source, u_source), hence the same relation holds
for the returned global vectors. -/
theorem vortexInfluence_eq_rot90_sourceInfluence
    (fieldPoint : Point2D) (panel : Panel) (strength : ℝ) :
    vortexInfluence fieldPoint panel strength =
      rot90 (sourceInfluence fieldPoint panel strength) := by
  unfold vortexInfluence sourceInfluence rot90
  simp only []
  split_ifs with h1 h2
  · ext <;> simp
  · ext <;> simp
  · unfold localToGlobal
    ext <;> ring

/-- sourceInfluenceNormal from influence.ts: dot of the source kernel with
the control-point normal. -/
noncomputable def sourceInfluenceNormal (controlPoint : Point2D)
    (sourcePanel : Panel) (controlNormal : Vector2D) (sourceStrength : ℝ) : ℝ :=
  dot (sourceInfluence controlPoint sourcePanel sourceStrength) controlNormal

/-- sourceInfluenceTangent from influence.ts. -/
noncomputable def sourceInfluenceTangent (controlPoint : Point2D)
    (sourcePanel : Panel) (controlTangent : Vector2D) (sourceStrength : ℝ) : ℝ :=
  dot (sourceInfluence controlPoint sourcePanel sourceStrength) controlTangent

/-- vortexInfluenceNormal from influence.ts. -/
noncomputable def vortexInfluenceNormal (controlPoint : Point2D)
    (vortexPanel : Panel) (controlNormal : Vector2D) (vortexStrength : ℝ) : ℝ :=
  dot (vortexInfluence controlPoint vortexPanel vortexStrength) controlNormal

/-- vortexInfluenceTangent from influence.ts. -/
noncomputable def vortexInfluenceTangent (controlPoint : Point2D)
    (vortexPanel : Panel) (controlTangent : Vector2D) (vortexStrength : ℝ) : ℝ :=
  dot (vortexInfluence controlPoint vortexPanel vortexStrength) controlTangent

/-- totalVelocity from influence.ts: freestream plus all source panel
contributions weighted by sigma plus all vortex contributions carrying the
circulation spread evenly over the panels. -/
noncomputable def totalVelocity (fieldPoint : Point2D) (panels : List Panel)
    (sourceStrengths : List ℝ) (totalCirculation : ℝ)
    (freestream : Vector2D) : Vector2D :=
  let n := panels.length
  let sourceSumX := ((List.range n).map fun i =>
    (sourceInfluence fieldPoint (panels.getD i dPanel)
      (sourceStrengths.getD i 0)).x).sum
  let sourceSumY := ((List.range n).map fun i =>
    (sourceInfluence fieldPoint (panels.getD i dPanel)
      (sourceStrengths.getD i 0)).y).sum
  let circulationPerPanel := totalCirculation / (n : ℝ)
  let vortexSumX := ((List.range n).map fun i =>
    (vortexInfluence fieldPoint (panels.getD i dPanel) circulationPerPanel).x).sum
  let vortexSumY := ((List.range n).map fun i =>
    (vortexInfluence fieldPoint (panels.getD i dPanel) circulationPerPanel).y).sum
  ⟨freestream.x + sourceSumX + vortexSumX, freestream.y + sourceSumY + vortexSumY⟩

/-- buildSourceInfluenceMatrix from influence.ts: entry (i, j) is the normal
component at control point i of the unit-strength source influence of
panel j. -/
noncomputable def buildSourceInfluenceMatrix (panels : List Panel) :
    List (List ℝ) :=
  let n := panels.length
  (List.range n).map fun i =>
    (List.range n).map fun j =>
      sourceInfluenceNormal (panels.getD i dPanel).controlPoint
        (panels.getD j dPanel) (panels.getD i dPanel).normal 1

/-- buildVortexInfluenceVector from influence.ts: entry i accumulates, over
all panels j, the normal component at control point i of the vortex
influence of panel j carrying strength 1/n. -/
noncomputable def buildVortexInfluenceVector (panels : List Panel) : List ℝ :=
  let n := panels.length
  let unitCirculationPerPanel : ℝ := 1 / (n : ℝ)
  (List.range n).map fun i =>
    ((List.range n).map fun j =>
      vortexInfluenceNormal (panels.getD i dPanel).controlPoint
        (panels.getD j dPanel) (panels.getD i dPanel).normal
        unitCirculationPerPanel).sum

/-- buildKuttaCoefficients from influence.ts: per-panel source coefficients
are tangential differences at the two trailing-edge control points, and the
single vortex coefficient accumulates the same difference for strength 1/n. -/
noncomputable def buildKuttaCoefficients (panels : List Panel)
    (teUpperIndex teLowerIndex : ℕ) : List ℝ × ℝ :=
  let n := panels.length
  let upperControlPoint := (panels.getD teUpperIndex dPanel).controlPoint
  let upperTangent := (panels.getD teUpperIndex dPanel).tangent
  let lowerControlPoint := (panels.getD teLowerIndex dPanel).controlPoint
  let lowerTangent := (panels.getD teLowerIndex dPanel).tangent
  let sourceCoeffs := (List.range n).map fun j =>
    sourceInfluenceTangent upperControlPoint (panels.getD j dPanel)
      upperTangent 1 -
    sourceInfluenceTangent lowerControlPoint (panels.getD j dPanel)
      lowerTangent 1
  let unitCirculationPerPanel : ℝ := 1 / (n : ℝ)
  let vortexCoeff := ((List.range n).map fun j =>
    vortexInfluenceTangent upperControlPoint (panels.getD j dPanel)
      upperTangent unitCirculationPerPanel -
    vortexInfluenceTangent lowerControlPoint (panels.getD j dPanel)
      lowerTangent unitCirculationPerPanel).sum
  (sourceCoeffs, vortexCoeff)

/-- Thickness distribution of the 4-digit section, shared verbatim by the
two surface loops of naca4 in geometry.ts. -/
noncomputable def nacaYt (t chord xc : ℝ) : ℝ :=
  (t * chord / 0.2) * (0.2969 * Real.sqrt xc - 0.1260 * xc -
    0.3516 * xc * xc + 0.2843 * xc * xc * xc - 0.1015 * xc * xc * xc * xc)

open Classical in
/-- Camber line value and slope of the 4-digit section, shared verbatim by
the two surface loops of naca4 in geometry.ts. -/
noncomputable def nacaCamber (m p chord xc : ℝ) : ℝ × ℝ :=
  if m = 0 then (0, 0)
  else if xc ≤ p then
    ((m * chord) * (2 * p * xc - xc * xc) / (p * p),
     (2 * m) * (p - xc) / (p * p))
  else
    ((m * chord) * ((1 - 2 * p) + 2 * p * xc - xc * xc) / ((1 - p) * (1 - p)),
     (2 * m) * (p - xc) / ((1 - p) * (1 - p)))

/-- One upper-surface point of naca4 at chordwise station xi. -/
noncomputable def nacaUpperPoint (m p t chord xi : ℝ) : Point2D :=
  let xc := xi / chord
  let yt := nacaYt t chord xc
  let yc := (nacaCamber m p chord xc).1
  let dyc_dx := (nacaCamber m p chord xc).2
  let theta := Real.arctan dyc_dx
  ⟨xi - yt * Real.sin theta, yc + yt * Real.cos theta⟩

/-- One lower-surface point of naca4 at chordwise station xi. -/
noncomputable def nacaLowerPoint (m p t chord xi : ℝ) : Point2D :=
  let xc := xi / chord
  let yt := nacaYt t chord xc
  let yc := (nacaCamber m p chord xc).1
  let dyc_dx := (nacaCamber m p chord xc).2
  let theta := Real.arctan dyc_dx
  ⟨xi + yt * Real.sin theta, yc - yt * Real.cos theta⟩

/-- Cosine-spaced chordwise station i of geometry.ts naca4:
x_i = chord (1 - cos (pi i / halfPoints)) / 2. -/
noncomputable def nacaStation (chord : ℝ) (halfPoints i : ℕ) : ℝ :=
  chord * (1 - Real.cos (π * (i : ℝ) / (halfPoints : ℝ))) / 2

/-- naca4 from geometry.ts.  The 4-digit string is modelled after its regex
validation and parseInt decoding: d1 is the first digit, d2 the second and
dt the final two-digit group, so m = d1/100, p = d2/10, t = dt/100.  The
first loop emits indices 0..halfPoints-1 and the second loop runs i from
halfPoints down to 0. -/
noncomputable def naca4 (d1 d2 dt : ℕ) (nPoints : ℕ) (chord : ℝ) :
    List Point2D :=
  let m : ℝ := (d1 : ℝ) / 100
  let p : ℝ := (d2 : ℝ) / 10
  let t : ℝ := (dt : ℝ) / 100
  let halfPoints := nPoints / 2
  let xs : List ℝ :=
    (List.range (halfPoints + 1)).map (nacaStation chord halfPoints)
  let upper := (List.range halfPoints).map fun i =>
    nacaUpperPoint m p t chord (xs.getD i 0)
  let lower := (List.range (halfPoints + 1)).map fun k =>
    nacaLowerPoint m p t chord (xs.getD (halfPoints - k) 0)
  upper ++ lower

/-- panelize from geometry.ts: the requested panel count is clamped to the
available point count minus one, and each panel links consecutive loop
points with wrap-around, deriving length, angle, unit tangent, outward
normal for a clockwise contour and the inward-nudged control point. -/
noncomputable def panelize (points : List Point2D)
    (params : PanelMethodParameters) : List Panel :=
  let nPanels := min params.nPanels (points.length - 1)
  let xCoords := points.map Point2D.x
  let chord := xCoords.max?.getD 0 - xCoords.min?.getD 0
  let epsilon := params.epsilon * chord
  (List.range nPanels).map fun i =>
    let p1 := points.getD i ⟨0, 0⟩
    let p2 := points.getD ((i + 1) % points.length) ⟨0, 0⟩
    let dx := p2.x - p1.x
    let dy := p2.y - p1.y
    let length := Real.sqrt (dx * dx + dy * dy)
    let angle := atan2 dy dx
    let tangent : Vector2D := ⟨Real.cos angle, Real.sin angle⟩
    let normal : Vector2D := ⟨Real.sin angle, -Real.cos angle⟩
    let midX := (p1.x + p2.x) / 2
    let midY := (p1.y + p2.y) / 2
    { x1 := p1.x, y1 := p1.y, x2 := p2.x, y2 := p2.y
    , length := length, angle := angle, tangent := tangent, normal := normal
    , controlPoint := ⟨midX - epsilon * normal.x, midY - epsilon * normal.y⟩ }

/-- NacaParameters from types.ts, with the digit string already decoded. -/
structure NacaParameters where
  d1 : ℕ
  d2 : ℕ
  dt : ℕ
  nPoints : ℕ
  chord : ℝ

/-- createAirfoilGeometry from geometry.ts: generate the loop, panelize it
and record the trailing-edge panel indices 0 and panels.length - 1. -/
noncomputable def createAirfoilGeometry (nacaParams : NacaParameters)
    (panelParams : PanelMethodParameters) : AirfoilGeometry :=
  let points := naca4 nacaParams.d1 nacaParams.d2 nacaParams.dt
    nacaParams.nPoints nacaParams.chord
  let panels := panelize points panelParams
  { points := points, panels := panels, chord := nacaParams.chord
  , teUpperIndex := 0, teLowerIndex := panels.length - 1 }

/-- Claim C8: panelize always returns exactly
min (requested panel count) (boundary point count - 1) panels, silently
clamping an oversized request instead of rejecting it. -/
theorem panelize_length_eq_min (points : List Point2D)
    (params : PanelMethodParameters) :
    (panelize points params).length = min params.nPanels (points.length - 1) := by
  unfold panelize
  simp

/-- Indexing helper: reading a mapped range below its length yields the
mapped value. -/
theorem getD_map_range {α : Type} (f : ℕ → α) (n i : ℕ) (d : α) (h : i < n) :
    ((List.range n).map f).getD i d = f i := by
  rw [List.getD_eq_getElem?_getD, List.getElem?_map, List.getElem?_range h]
  rfl

/-- Indexing helper: the head of a nonempty mapped range, also after an
append. -/
theorem head_map_range_append {α : Type} (f : ℕ → α) (n : ℕ) (h : 0 < n)
    (l : List α) : (((List.range n).map f) ++ l).head? = some (f 0) := by
  cases n with
  | zero => omega
  | succ m =>
    rw [List.range_succ_eq_map]
    simp

/-- Indexing helper: reading an append past the left length reads the right
list. -/
theorem getD_append_right {α : Type} (l l' : List α) (n : ℕ) (d : α)
    (h : l.length ≤ n) : (l ++ l').getD n d = l'.getD (n - l.length) d := by
  rw [List.getD_eq_getElem?_getD, List.getElem?_append_right h,
    List.getD_eq_getElem?_getD]

/-- Claim C1 (failing-input evaluation): for NACA 0012 with 20 points and
chord 1, the first point of the generated loop is the leading edge (0, 0),
not the upper trailing-edge point, and the trailing edge x = chord = 1 sits
at the middle index halfPoints = 10 of the loop; so the upper surface is
generated leading-edge to trailing-edge, contradicting the documented order. -/
theorem naca4_first_point_is_leading_edge :
    (naca4 0 0 12 20 1).head? = some ⟨0, 0⟩ ∧
    ((naca4 0 0 12 20 1).getD 10 ⟨0, 0⟩).x = 1 := by
  have hcam : ∀ p chord xc : ℝ, nacaCamber ((0 : ℕ) : ℝ) p chord xc = (0, 0) := by
    intro p chord xc
    unfold nacaCamber
    simp
  have hst0 : nacaStation 1 10 0 = 0 := by
    unfold nacaStation
    norm_num
  have hst10 : nacaStation 1 10 10 = 1 := by
    unfold nacaStation
    have h : π * ((10 : ℕ) : ℝ) / ((10 : ℕ) : ℝ) = π := by
      norm_num
    rw [h, Real.cos_pi]
    norm_num
  have h10 : (20 : ℕ) / 2 = 10 := by norm_num
  constructor
  · unfold naca4
    rw [h10]
    try dsimp only
    rw [head_map_range_append _ _ (by norm_num)]
    rw [getD_map_range _ _ _ _ (by norm_num)]
    rw [hst0]
    unfold nacaUpperPoint
    rw [show ((0 : ℕ) : ℝ) / 100 = ((0 : ℕ) : ℝ) by norm_num]
    try dsimp only
    simp only [hcam]
    unfold nacaYt
    norm_num [Real.sqrt_zero, Real.arctan_zero, Real.sin_zero, Real.cos_zero]
  · unfold naca4
    rw [h10]
    try dsimp only
    rw [getD_append_right _ _ _ _ (by simp)]
    simp only [List.length_map, List.length_range]
    rw [getD_map_range _ _ _ _ (by norm_num)]
    rw [getD_map_range _ _ _ _ (by norm_num)]
    rw [hst10]
    unfold nacaLowerPoint
    rw [show ((0 : ℕ) : ℝ) / 100 = ((0 : ℕ) : ℝ) by norm_num]
    try dsimp only
    simp only [hcam]
    norm_num [Real.arctan_zero, Real.sin_zero]

/-- Mutable (n+1)-column augmented matrix of solver.ts, modelled as a total
function from row and column indices; entries outside the active block are
never consulted. -/
abbrev Mat := ℕ → ℕ → ℝ

open Classical in
/-- Pivot search of solveLinearSystem: scan rows k+1..n-1 and keep the row
whose column-k entry has strictly larger absolute value. -/
noncomputable def pivotRow (aug : Mat) (k n : ℕ) : ℕ :=
  (List.range' (k + 1) (n - (k + 1))).foldl
    (fun maxRow i => if |aug i k| > |aug maxRow k| then i else maxRow) k

/-- Row swap of solveLinearSystem. -/
def swapRows (aug : Mat) (k r : ℕ) : Mat := fun i j =>
  aug (if i = k then r else if i = r then k else i) j

open Classical in
/-- Elimination step of solveLinearSystem at column k: each row below k over
columns k..n loses factor times row k, with the factor read before the row
is modified. -/
noncomputable def eliminateBelow (n : ℕ) (aug : Mat) (k : ℕ) : Mat := fun i j =>
  if k + 1 ≤ i ∧ i < n ∧ k ≤ j ∧ j ≤ n then
    aug i j - aug i k / aug k k * aug k j
  else aug i j

/-- Error raised by solveLinearSystem in solver.ts when a pivot is too
small; the thrown message carries the offending row. -/
inductive SolverError where
  | singularMatrix (row : ℕ)

open Classical in
/-- Forward elimination loop of solveLinearSystem: for k = 0..n-1, find the
pivot, swap, fail when the pivot magnitude is below 1e-14, else eliminate.
The fuel argument counts the remaining loop iterations. -/
noncomputable def elimAux (n : ℕ) : ℕ → ℕ → Mat → Except SolverError Mat
  | 0, _, aug => .ok aug
  | fuel + 1, k, aug =>
    let r := pivotRow aug k n
    let swapped := swapRows aug k r
    if |swapped k k| < 1e-14 then .error (.singularMatrix k)
    else elimAux n fuel (k + 1) (eliminateBelow n swapped k)

/-- Modelled from the spec: the sequence of pivots met by Gaussian
elimination with row pivoting, column by column, with no smallness check,
used to state when the solver must report a singular system. -/
noncomputable def pivotsAux (n : ℕ) : ℕ → ℕ → Mat → List ℝ
  | 0, _, _ => []
  | fuel + 1, k, aug =>
    let r := pivotRow aug k n
    let swapped := swapRows aug k r
    swapped k k :: pivotsAux n fuel (k + 1) (eliminateBelow n swapped k)

/-- Back substitution loop of solveLinearSystem, from the last row upward;
the accumulator holds the already-computed trailing solution entries. -/
noncomputable def backSubAux (n : ℕ) (aug : Mat) : ℕ → List ℝ → List ℝ
  | 0, acc => acc
  | i + 1, acc =>
    let s := (acc.enum.map fun p => aug i (i + 1 + p.1) * p.2).sum
    backSubAux n aug i ((aug i n - s) / aug i i :: acc)

open Classical in
/-- Augmented matrix [A | b] of solveLinearSystem after the regularization
has been added to every diagonal entry of the square block. -/
noncomputable def augmentedOf (A : List (List ℝ)) (b : List ℝ)
    (regularization : ℝ) : Mat := fun i j =>
  (if j = A.length then b.getD i 0 else (A.getD i []).getD j 0) +
    (if i = j ∧ j < A.length then regularization else 0)

/-- solveLinearSystem from solver.ts: build the augmented matrix, add the
regularization to every diagonal entry of the square block, run forward
elimination with row pivoting and the 1e-14 pivot check, then back
substitute. -/
noncomputable def solveLinearSystem (A : List (List ℝ)) (b : List ℝ)
    (regularization : ℝ) : Except SolverError (List ℝ) :=
  let n := A.length
  (elimAux n n 0 (augmentedOf A b regularization)).map fun aug =>
    backSubAux n aug n []

/-- Modelled from the spec: the pivots met while eliminating the given
regularized system, used to characterize the SingularSystem failure. -/
noncomputable def systemPivots (A : List (List ℝ)) (b : List ℝ)
    (regularization : ℝ) : List ℝ :=
  pivotsAux A.length A.length 0 (augmentedOf A b regularization)

/-- Freestream velocity vector computed in solvePanelMethod from the flow
conditions. -/
noncomputable def freestreamOf (flow : FlowConditions) : Vector2D :=
  ⟨flow.velocity * Real.cos flow.angleOfAttack,
   flow.velocity * Real.sin flow.angleOfAttack⟩

/-- Matrix entry observer with the JavaScript out-of-range default. -/
def mget (M : List (List ℝ)) (i j : ℕ) : ℝ := (M.getD i []).getD j 0

/-- Vector entry observer with the JavaScript out-of-range default. -/
def vget (v : List ℝ) (i : ℕ) : ℝ := v.getD i 0

/-- Extended (n+1)-square matrix assembled by solvePanelMethod: the source
influence block, the vortex influence column, and the Kutta row. -/
noncomputable def assembledMatrix (geometry : AirfoilGeometry) :
    List (List ℝ) :=
  let panels := geometry.panels
  let n := panels.length
  let A := buildSourceInfluenceMatrix panels
  let bGamma := buildVortexInfluenceVector panels
  let kutta := buildKuttaCoefficients panels geometry.teUpperIndex
    geometry.teLowerIndex
  ((List.range n).map fun i =>
    ((List.range n).map fun j => mget A i j) ++ [vget bGamma i]) ++
    [kutta.1 ++ [kutta.2]]

/-- Right-hand side assembled by solvePanelMethod: minus the freestream
normal component at each control point, and the Kutta row freestream
tangential difference. -/
noncomputable def assembledRhs (geometry : AirfoilGeometry)
    (flow : FlowConditions) : List ℝ :=
  let panels := geometry.panels
  let n := panels.length
  let freestream := freestreamOf flow
  ((List.range n).map fun i =>
    -(freestream.x * (panels.getD i dPanel).normal.x +
      freestream.y * (panels.getD i dPanel).normal.y)) ++
  [-(dot freestream (panels.getD geometry.teUpperIndex dPanel).tangent -
     dot freestream (panels.getD geometry.teLowerIndex dPanel).tangent)]

/-- Surface tangential velocities computed by solvePanelMethod from the
solved strengths: freestream tangential part plus all source contributions
at strength sigma j plus all vortex contributions at strength gamma over n. -/
noncomputable def vtList (panels : List Panel) (flow : FlowConditions)
    (sigma : List ℝ) (gamma : ℝ) : List ℝ :=
  let n := panels.length
  let freestream := freestreamOf flow
  let gammaPerPanel := gamma / (n : ℝ)
  (List.range n).map fun i =>
    dot freestream (panels.getD i dPanel).tangent +
    ((List.range n).map fun j =>
      sourceInfluenceTangent (panels.getD i dPanel).controlPoint
        (panels.getD j dPanel) (panels.getD i dPanel).tangent
        (sigma.getD j 0)).sum +
    ((List.range n).map fun j =>
      vortexInfluenceTangent (panels.getD i dPanel).controlPoint
        (panels.getD j dPanel) (panels.getD i dPanel).tangent
        gammaPerPanel).sum

/-- Pressure coefficients computed by solvePanelMethod:
cp i = 1 - (vt i / velocity) squared. -/
noncomputable def cpList (panels : List Panel) (flow : FlowConditions)
    (sigma : List ℝ) (gamma : ℝ) : List ℝ :=
  (vtList panels flow sigma gamma).map fun v => 1 - (v / flow.velocity) ^ 2

/-- Lift coefficient from circulation computed by solvePanelMethod:
2 gamma / (velocity times chord). -/
noncomputable def clGammaOf (flow : FlowConditions) (chord gamma : ℝ) : ℝ :=
  2 * gamma / (flow.velocity * chord)

/-- calculateLiftFromPressure from solver.ts. -/
noncomputable def calculateLiftFromPressure (panels : List Panel)
    (cp : List ℝ) (chord : ℝ) : ℝ :=
  ((List.range panels.length).map fun i =>
    -cp.getD i 0 * ((panels.getD i dPanel).x2 - (panels.getD i dPanel).x1) *
      (panels.getD i dPanel).normal.y / chord).sum

/-- calculateResidual from solver.ts: the L2 norm of A x - b over the rows
of A, with the inner products running over the length of x. -/
noncomputable def calculateResidual (A : List (List ℝ)) (x : List ℝ)
    (b : List ℝ) : ℝ :=
  Real.sqrt (((List.range A.length).map fun i =>
    let axRow := ((List.range x.length).map fun j =>
      mget A i j * x.getD j 0).sum
    (axRow - b.getD i 0) * (axRow - b.getD i 0)).sum)

/-- solvePanelMethod from solver.ts: assemble the extended system, solve it
with the regularized elimination, then derive all reported quantities. -/
noncomputable def solvePanelMethod (geometry : AirfoilGeometry)
    (flow : FlowConditions) (params : PanelMethodParameters) :
    Except SolverError PanelSolution :=
  let panels := geometry.panels
  let n := panels.length
  let extendedA := assembledMatrix geometry
  let rhs := assembledRhs geometry flow
  (solveLinearSystem extendedA rhs params.regularization).map fun solution =>
    let sigma := solution.take n
    let gamma := solution.getD n 0
    let cp := cpList panels flow sigma gamma
    { sigma := sigma
    , gamma := gamma
    , cp := cp
    , vt := vtList panels flow sigma gamma
    , clGamma := clGammaOf flow geometry.chord gamma
    , clPressure := calculateLiftFromPressure panels cp geometry.chord
    , residual := calculateResidual extendedA solution rhs
    , iterations := 1 }

/-- Warnings reported by validateSolution in solver.ts; the formatted
message strings are abstracted to tags. -/
inductive SolutionWarning where
  | highResidual
  | thinAirfoilDeviation
  | clMethodsDisagree
  | extremeCp

/-- Result record of validateSolution. -/
structure ValidationResult where
  isValid : Bool
  warnings : List SolutionWarning

open Classical in
/-- validateSolution from solver.ts: isValid starts true and is cleared only
by the residual check; the three remaining checks append warnings only. -/
noncomputable def validateSolution (solution : PanelSolution)
    (geometry : AirfoilGeometry) (flow : FlowConditions) : ValidationResult :=
  let w1 : List SolutionWarning :=
    if solution.residual > 1e-6 then [.highResidual] else []
  let isValid : Bool := if solution.residual > 1e-6 then false else true
  let thinAirfoilCL := 2 * π * flow.angleOfAttack
  let clDiff := |solution.clGamma - thinAirfoilCL|
  let w2 : List SolutionWarning :=
    if |flow.angleOfAttack| > 0.01 ∧ clDiff > |thinAirfoilCL| * 0.5 then
      [.thinAirfoilDeviation]
    else []
  let w3 : List SolutionWarning :=
    if |solution.clGamma - solution.clPressure| > 0.1 then
      [.clMethodsDisagree]
    else []
  let maxCp := solution.cp.max?.getD 0
  let minCp := solution.cp.min?.getD 0
  let w4 : List SolutionWarning :=
    if maxCp > 2 ∨ minCp < -10 then [.extremeCp] else []
  ⟨isValid, w1 ++ w2 ++ w3 ++ w4⟩

/-- Elimination fails for some row exactly when some pivot of the unchecked
elimination falls below 1e-14 in absolute value. -/
theorem elimAux_error_iff (n : ℕ) : ∀ (fuel k : ℕ) (aug : Mat),
    (∃ e, elimAux n fuel k aug = .error e) ↔
      ∃ p ∈ pivotsAux n fuel k aug, |p| < 1e-14 := by
  intro fuel
  induction fuel with
  | zero =>
    intro k aug
    simp [elimAux, pivotsAux]
  | succ m ih =>
    intro k aug
    rw [elimAux, pivotsAux]
    by_cases h : |swapRows aug k (pivotRow aug k n) k k| < 1e-14
    · simp [h]
    · simp [h, ih]

/-- Mapping over an Except value neither creates nor removes an error. -/
theorem except_map_error_iff {α β γ : Type} (x : Except γ α) (f : α → β) :
    (∃ e, x.map f = .error e) ↔ ∃ e, x = .error e := by
  cases x <;> simp [Except.map]

/-- Claim C3: solveLinearSystem, and hence solvePanelMethod, reports a
singular system exactly when some pivot of the row-pivoting elimination
of the regularized matrix has absolute value below 1e-14; in every other
case the solve succeeds. -/
theorem solvePanelMethod_error_iff_small_pivot :
    (∀ (A : List (List ℝ)) (b : List ℝ) (reg : ℝ),
      ((∃ e, solveLinearSystem A b reg = .error e) ↔
        ∃ p ∈ systemPivots A b reg, |p| < 1e-14)) ∧
    (∀ (geometry : AirfoilGeometry) (flow : FlowConditions)
      (params : PanelMethodParameters),
      ((∃ e, solvePanelMethod geometry flow params = .error e) ↔
        ∃ p ∈ systemPivots (assembledMatrix geometry)
          (assembledRhs geometry flow) params.regularization, |p| < 1e-14)) := by
  have hsls : ∀ (A : List (List ℝ)) (b : List ℝ) (reg : ℝ),
      ((∃ e, solveLinearSystem A b reg = .error e) ↔
        ∃ p ∈ systemPivots A b reg, |p| < 1e-14) := by
    intro A b reg
    unfold solveLinearSystem systemPivots
    rw [except_map_error_iff]
    exact elimAux_error_iff A.length A.length 0 (augmentedOf A b reg)
  refine ⟨hsls, ?_⟩
  intro geometry flow params
  unfold solvePanelMethod
  rw [except_map_error_iff]
  exact hsls _ _ _

/-- Claim C9: solvePanelMethod is deterministic; equal geometry, flow and
parameters give equal solutions, there being no hidden state in the
embedding of the solver. -/
theorem solvePanelMethod_deterministic
    (g1 g2 : AirfoilGeometry) (f1 f2 : FlowConditions)
    (p1 p2 : PanelMethodParameters)
    (hg : g1 = g2) (hf : f1 = f2) (hp : p1 = p2) :
    solvePanelMethod g1 f1 p1 = solvePanelMethod g2 f2 p2 := by
  rw [hg, hf, hp]

/-- Concrete geometry used to witness the determinism theorem. -/
def witnessGeometry : AirfoilGeometry :=
  { points := [⟨0, 0⟩, ⟨1, 1⟩, ⟨2, 0⟩], panels := [], chord := 1
  , teUpperIndex := 0, teLowerIndex := 0 }

/-- Concrete flow conditions used to witness the determinism theorem. -/
def witnessFlow : FlowConditions :=
  { velocity := 10, density := 1.225, angleOfAttack := 0 }

/-- Concrete parameters used to witness the determinism theorem. -/
def witnessParams : PanelMethodParameters :=
  { nPanels := 100, epsilon := 1e-9, regularization := 1e-12
  , maxIterations := 1000, tolerance := 1e-10 }

/-- Witness for claim C9 at concrete inputs. -/
theorem solvePanelMethod_deterministic_witness :
    solvePanelMethod witnessGeometry witnessFlow witnessParams =
      solvePanelMethod witnessGeometry witnessFlow witnessParams :=
  solvePanelMethod_deterministic witnessGeometry witnessGeometry
    witnessFlow witnessFlow witnessParams witnessParams rfl rfl rfl

/-- Claim C10: validateSolution judges a solution valid exactly when its
residual is at most 1e-6; the remaining checks only append warnings. -/
theorem validateSolution_isValid_iff (solution : PanelSolution)
    (geometry : AirfoilGeometry) (flow : FlowConditions) :
    (validateSolution solution geometry flow).isValid = true ↔
      solution.residual ≤ 1e-6 := by
  unfold validateSolution
  try dsimp only
  by_cases h : solution.residual > 1e-6
  · simp [h, not_le.mpr h]
  · simp [h, le_of_not_lt h]

/-- Indexing helper: reading an append below the left length reads the left
list. -/
theorem getD_append_left {α : Type} (l l' : List α) (n : ℕ) (d : α)
    (h : n < l.length) : (l ++ l').getD n d = l.getD n d := by
  rw [List.getD_eq_getElem?_getD, List.getElem?_append_left h,
    List.getD_eq_getElem?_getD]

/-- Summing a mapped range list is summing over Finset.range. -/
theorem sum_map_range_eq (f : ℕ → ℝ) (n : ℕ) :
    ((List.range n).map f).sum = ∑ j ∈ Finset.range n, f j := by
  induction n with
  | zero => simp
  | succ m ih =>
    rw [List.range_succ, List.map_append, List.sum_append,
      Finset.sum_range_succ, ih]
    simp

/-- The source kernel is linear in its strength. -/
theorem sourceInfluence_smul (p : Point2D) (panel : Panel) (s : ℝ) :
    sourceInfluence p panel s =
      ⟨s * (sourceInfluence p panel 1).x, s * (sourceInfluence p panel 1).y⟩ := by
  unfold sourceInfluence
  try dsimp only
  split_ifs with h1 h2
  · ext <;> simp
  · ext <;> simp
  · unfold localToGlobal
    try dsimp only
    ext <;> ring

/-- The vortex kernel is linear in its strength. -/
theorem vortexInfluence_smul (p : Point2D) (panel : Panel) (s : ℝ) :
    vortexInfluence p panel s =
      ⟨s * (vortexInfluence p panel 1).x, s * (vortexInfluence p panel 1).y⟩ := by
  unfold vortexInfluence
  try dsimp only
  split_ifs with h1 h2
  · ext <;> simp
  · ext <;> simp
  · unfold localToGlobal
    try dsimp only
    ext <;> ring

/-- Tangential projection of the vortex kernel is linear in its strength. -/
theorem vortexInfluenceTangent_smul (cp : Point2D) (panel : Panel)
    (t : Vector2D) (s : ℝ) :
    vortexInfluenceTangent cp panel t s =
      s * vortexInfluenceTangent cp panel t 1 := by
  unfold vortexInfluenceTangent
  rw [vortexInfluence_smul]
  unfold dot
  try dsimp only
  ring

/-- Normal projection of the vortex kernel is linear in its strength. -/
theorem vortexInfluenceNormal_smul (cp : Point2D) (panel : Panel)
    (nv : Vector2D) (s : ℝ) :
    vortexInfluenceNormal cp panel nv s =
      s * vortexInfluenceNormal cp panel nv 1 := by
  unfold vortexInfluenceNormal
  rw [vortexInfluence_smul]
  unfold dot
  try dsimp only
  ring

/-- Tangential projection of the source kernel is linear in its strength. -/
theorem sourceInfluenceTangent_smul (cp : Point2D) (panel : Panel)
    (t : Vector2D) (s : ℝ) :
    sourceInfluenceTangent cp panel t s =
      s * sourceInfluenceTangent cp panel t 1 := by
  unfold sourceInfluenceTangent
  rw [sourceInfluence_smul]
  unfold dot
  try dsimp only
  ring

/-- Entry (i, j) of the assembled matrix in the square block. -/
theorem mget_assembledMatrix_lt_lt (g : AirfoilGeometry) (i j : ℕ)
    (hi : i < g.panels.length) (hj : j < g.panels.length) :
    mget (assembledMatrix g) i j =
      sourceInfluenceNormal (g.panels.getD i dPanel).controlPoint
        (g.panels.getD j dPanel) (g.panels.getD i dPanel).normal 1 := by
  unfold assembledMatrix mget
  try dsimp only
  rw [getD_append_left _ _ _ _ (by simpa using hi)]
  rw [getD_map_range _ _ _ _ hi]
  try dsimp only
  rw [getD_append_left _ _ _ _ (by simpa using hj)]
  rw [getD_map_range _ _ _ _ hj]
  unfold buildSourceInfluenceMatrix
  try dsimp only
  rw [getD_map_range _ _ _ _ hi]
  try dsimp only
  rw [getD_map_range _ _ _ _ hj]

/-- Entry (i, n) of the assembled matrix: the vortex influence column. -/
theorem mget_assembledMatrix_lt_n (g : AirfoilGeometry) (i : ℕ)
    (hi : i < g.panels.length) :
    mget (assembledMatrix g) i g.panels.length =
      vget (buildVortexInfluenceVector g.panels) i := by
  unfold assembledMatrix mget
  try dsimp only
  rw [getD_append_left _ _ _ _ (by simpa using hi)]
  rw [getD_map_range _ _ _ _ hi]
  try dsimp only
  rw [getD_append_right _ _ _ _ (by simp)]
  simp [vget]

/-- Row n of the assembled matrix holds the Kutta coefficients. -/
theorem mget_assembledMatrix_n (g : AirfoilGeometry) (j : ℕ) :
    mget (assembledMatrix g) g.panels.length j =
      ((buildKuttaCoefficients g.panels g.teUpperIndex g.teLowerIndex).1 ++
        [(buildKuttaCoefficients g.panels g.teUpperIndex g.teLowerIndex).2]).getD
        j 0 := by
  unfold assembledMatrix mget
  try dsimp only
  rw [getD_append_right _ _ _ _ (by simp)]
  simp

/-- Row i of the assembled right-hand side below the Kutta row. -/
theorem vget_assembledRhs_lt (g : AirfoilGeometry) (flow : FlowConditions)
    (i : ℕ) (hi : i < g.panels.length) :
    vget (assembledRhs g flow) i =
      -((freestreamOf flow).x * (g.panels.getD i dPanel).normal.x +
        (freestreamOf flow).y * (g.panels.getD i dPanel).normal.y) := by
  unfold assembledRhs vget
  try dsimp only
  rw [getD_append_left _ _ _ _ (by simpa using hi)]
  rw [getD_map_range _ _ _ _ hi]

/-- Kutta row of the assembled right-hand side. -/
theorem vget_assembledRhs_n (g : AirfoilGeometry) (flow : FlowConditions) :
    vget (assembledRhs g flow) g.panels.length =
      -(dot (freestreamOf flow)
          (g.panels.getD g.teUpperIndex dPanel).tangent -
        dot (freestreamOf flow)
          (g.panels.getD g.teLowerIndex dPanel).tangent) := by
  unfold assembledRhs vget
  try dsimp only
  rw [getD_append_right _ _ _ _ (by simp)]
  simp

/-- Claim C2: the extended (n+1)-square system assembled by solvePanelMethod
is exactly the spec system: in the square block the normal component of the
unit source influence, in the last column the normal component of a unit
circulation distributed as 1/n over all panels, in the last row the
trailing-edge tangential differences of each unit source and of the unit
circulation, with right-hand side minus the freestream normal components
and minus the freestream tangential difference. -/
theorem assembled_system_matches_spec (g : AirfoilGeometry)
    (flow : FlowConditions) :
    (∀ i j : Fin g.panels.length,
      mget (assembledMatrix g) i j =
        dot (sourceInfluence (g.panels.getD i dPanel).controlPoint
          (g.panels.getD j dPanel) 1) (g.panels.getD i dPanel).normal ∧
      mget (assembledMatrix g) i g.panels.length =
        ∑ q ∈ Finset.range g.panels.length,
          (1 / (g.panels.length : ℝ)) *
            dot (vortexInfluence (g.panels.getD i dPanel).controlPoint
              (g.panels.getD q dPanel) 1) (g.panels.getD i dPanel).normal ∧
      mget (assembledMatrix g) g.panels.length j =
        dot (sourceInfluence
            (g.panels.getD g.teUpperIndex dPanel).controlPoint
            (g.panels.getD j dPanel) 1)
          (g.panels.getD g.teUpperIndex dPanel).tangent -
        dot (sourceInfluence
            (g.panels.getD g.teLowerIndex dPanel).controlPoint
            (g.panels.getD j dPanel) 1)
          (g.panels.getD g.teLowerIndex dPanel).tangent ∧
      vget (assembledRhs g flow) i =
        -dot (freestreamOf flow) (g.panels.getD i dPanel).normal) ∧
    mget (assembledMatrix g) g.panels.length g.panels.length =
      ∑ q ∈ Finset.range g.panels.length,
        (1 / (g.panels.length : ℝ)) *
          (dot (vortexInfluence
              (g.panels.getD g.teUpperIndex dPanel).controlPoint
              (g.panels.getD q dPanel) 1)
            (g.panels.getD g.teUpperIndex dPanel).tangent -
           dot (vortexInfluence
              (g.panels.getD g.teLowerIndex dPanel).controlPoint
              (g.panels.getD q dPanel) 1)
            (g.panels.getD g.teLowerIndex dPanel).tangent) ∧
    vget (assembledRhs g flow) g.panels.length =
      -(dot (freestreamOf flow) (g.panels.getD g.teUpperIndex dPanel).tangent -
        dot (freestreamOf flow) (g.panels.getD g.teLowerIndex dPanel).tangent) := by
  refine ⟨fun i j => ⟨?_, ?_, ?_, ?_⟩, ?_, ?_⟩
  · rw [mget_assembledMatrix_lt_lt g i j i.isLt j.isLt]
    rfl
  · rw [mget_assembledMatrix_lt_n g i i.isLt]
    unfold buildVortexInfluenceVector vget
    try dsimp only
    rw [getD_map_range _ _ _ _ i.isLt]
    try dsimp only
    rw [sum_map_range_eq]
    refine Finset.sum_congr rfl fun q hq => ?_
    rw [vortexInfluenceNormal_smul]
    rfl
  · rw [mget_assembledMatrix_n]
    unfold buildKuttaCoefficients
    try dsimp only
    rw [getD_append_left _ _ _ _ (by simpa using j.isLt)]
    rw [getD_map_range _ _ _ _ j.isLt]
    rfl
  · rw [vget_assembledRhs_lt g flow i i.isLt]
    rfl
  · rw [mget_assembledMatrix_n]
    unfold buildKuttaCoefficients
    try dsimp only
    rw [getD_append_right _ _ _ _ (by simp)]
    simp only [List.length_map, List.length_range, Nat.sub_self]
    rw [List.getD_cons_zero]
    rw [sum_map_range_eq]
    refine Finset.sum_congr rfl fun q hq => ?_
    rw [vortexInfluenceTangent_smul, vortexInfluenceTangent_smul
      (g.panels.getD g.teLowerIndex dPanel).controlPoint]
    unfold vortexInfluenceTangent
    ring
  · exact vget_assembledRhs_n g flow

/-- Indexing helper: reading a mapped list below its length maps the read
value. -/
theorem getD_map_of_lt (l : List ℝ) (f : ℝ → ℝ) (i : ℕ) (h : i < l.length)
    (d d' : ℝ) : (l.map f).getD i d' = f (l.getD i d) := by
  rw [List.getD_eq_getElem?_getD, List.getElem?_map,
    List.getElem?_eq_getElem h, List.getD_eq_getElem?_getD,
    List.getElem?_eq_getElem h]
  rfl

/-- The tangential velocity list has one entry per panel. -/
theorem vtList_length (panels : List Panel) (flow : FlowConditions)
    (sigma : List ℝ) (gamma : ℝ) :
    (vtList panels flow sigma gamma).length = panels.length := by
  unfold vtList
  simp

/-- Claim C6: the post-processor of solvePanelMethod reconstructs exactly
the spec quantities from any solved strengths: the tangential velocity is
the freestream tangential part plus the sigma-weighted unit source
tangential influences plus the gamma-over-n-weighted unit vortex tangential
influences; cp is one minus the squared velocity ratio; the circulation
lift coefficient is 2 gamma over velocity times chord; and the pressure
lift coefficient is the stated panel sum; and the fields of every
successful solvePanelMethod result are these functions of its own sigma and
gamma. -/
theorem post_processor_matches_spec :
    (∀ (panels : List Panel) (flow : FlowConditions) (sigma : List ℝ)
       (gamma : ℝ) (i : Fin panels.length),
      vget (vtList panels flow sigma gamma) i =
        dot (freestreamOf flow) (panels.getD i dPanel).tangent +
        (∑ j ∈ Finset.range panels.length, sigma.getD j 0 *
          dot (sourceInfluence (panels.getD i dPanel).controlPoint
            (panels.getD j dPanel) 1) (panels.getD i dPanel).tangent) +
        (∑ j ∈ Finset.range panels.length, (gamma / (panels.length : ℝ)) *
          dot (vortexInfluence (panels.getD i dPanel).controlPoint
            (panels.getD j dPanel) 1) (panels.getD i dPanel).tangent) ∧
      vget (cpList panels flow sigma gamma) i =
        1 - (vget (vtList panels flow sigma gamma) i / flow.velocity) ^ 2) ∧
    (∀ (flow : FlowConditions) (chord gamma : ℝ),
      clGammaOf flow chord gamma = 2 * gamma / (flow.velocity * chord)) ∧
    (∀ (panels : List Panel) (cp : List ℝ) (chord : ℝ),
      calculateLiftFromPressure panels cp chord =
        ∑ i ∈ Finset.range panels.length, -cp.getD i 0 *
          ((panels.getD i dPanel).x2 - (panels.getD i dPanel).x1) *
          (panels.getD i dPanel).normal.y / chord) ∧
    (∀ (geometry : AirfoilGeometry) (flow : FlowConditions)
       (params : PanelMethodParameters),
      match solvePanelMethod geometry flow params with
      | .ok sol =>
        sol.vt = vtList geometry.panels flow sol.sigma sol.gamma ∧
        sol.cp = cpList geometry.panels flow sol.sigma sol.gamma ∧
        sol.clGamma = clGammaOf flow geometry.chord sol.gamma ∧
        sol.clPressure =
          calculateLiftFromPressure geometry.panels sol.cp geometry.chord
      | .error _ => True) := by
  refine ⟨fun panels flow sigma gamma i => ⟨?_, ?_⟩, fun _ _ _ => rfl,
    fun panels cp chord => ?_, fun geometry flow params => ?_⟩
  · unfold vtList vget
    try dsimp only
    rw [getD_map_range _ _ _ _ i.isLt]
    try dsimp only
    rw [sum_map_range_eq, sum_map_range_eq]
    congr 1
    · congr 1
      refine Finset.sum_congr rfl fun q hq => ?_
      rw [sourceInfluenceTangent_smul]
      rfl
    · refine Finset.sum_congr rfl fun q hq => ?_
      rw [vortexInfluenceTangent_smul]
      rfl
  · unfold cpList vget
    try dsimp only
    rw [getD_map_of_lt _ _ _ (by rw [vtList_length]; exact i.isLt) 0]
  · unfold calculateLiftFromPressure
    rw [sum_map_range_eq]
  · unfold solvePanelMethod
    try dsimp only
    cases h : solveLinearSystem (assembledMatrix geometry)
      (assembledRhs geometry flow) params.regularization with
    | error e => simp [Except.map, h]
    | ok solu => simp [Except.map, h]

/-- Claim C4: when the field point lies essentially on the panel, with
perpendicular local offset below the singularity threshold and longitudinal
coordinate within the panel span, both kernels return the exact zero
vector; in this exact-real embedding both kernels are moreover total, so no
undefined value can propagate. -/
theorem influence_on_panel_is_zero (fieldPoint : Point2D) (panel : Panel)
    (strength : ℝ)
    (hY : |(globalToLocal fieldPoint panel).y| < SINGULARITY_THRESHOLD)
    (hX0 : 0 ≤ (globalToLocal fieldPoint panel).x)
    (hXL : (globalToLocal fieldPoint panel).x ≤ panel.length) :
    sourceInfluence fieldPoint panel strength = ⟨0, 0⟩ ∧
    vortexInfluence fieldPoint panel strength = ⟨0, 0⟩ := by
  have hT : (0 : ℝ) ≤ SINGULARITY_THRESHOLD := by
    unfold SINGULARITY_THRESHOLD
    norm_num
  have hcond : |(globalToLocal fieldPoint panel).y| < SINGULARITY_THRESHOLD ∧
      ((globalToLocal fieldPoint panel).x ≥ -SINGULARITY_THRESHOLD ∧
       (globalToLocal fieldPoint panel).x ≤
         panel.length + SINGULARITY_THRESHOLD) := by
    refine ⟨hY, le_trans (by linarith) hX0, le_trans hXL (by linarith)⟩
  constructor
  · unfold sourceInfluence
    try dsimp only
    rw [if_pos hcond]
  · unfold vortexInfluence
    try dsimp only
    rw [if_pos hcond]

/-- Concrete panel used to witness the on-panel zero theorem: the unit
segment on the x-axis. -/
noncomputable def witnessPanel : Panel :=
  { x1 := 0, y1 := 0, x2 := 1, y2 := 0, length := 1, angle := 0
  , tangent := ⟨1, 0⟩, normal := ⟨0, -1⟩, controlPoint := ⟨1 / 2, 0⟩ }

/-- Concrete field point on the witness panel. -/
noncomputable def witnessFieldPoint : Point2D := ⟨1 / 2, 0⟩

/-- Witness for claim C4 at concrete inputs: the midpoint of the unit panel
satisfies all three guards and both kernels vanish there. -/
theorem influence_on_panel_is_zero_witness :
    |(globalToLocal witnessFieldPoint witnessPanel).y| <
      SINGULARITY_THRESHOLD ∧
    0 ≤ (globalToLocal witnessFieldPoint witnessPanel).x ∧
    (globalToLocal witnessFieldPoint witnessPanel).x ≤ witnessPanel.length ∧
    (sourceInfluence witnessFieldPoint witnessPanel 1 = ⟨0, 0⟩ ∧
     vortexInfluence witnessFieldPoint witnessPanel 1 = ⟨0, 0⟩) := by
  have h1 : |(globalToLocal witnessFieldPoint witnessPanel).y| <
      SINGULARITY_THRESHOLD := by
    norm_num [globalToLocal, witnessFieldPoint, witnessPanel,
      SINGULARITY_THRESHOLD]
  have h2 : 0 ≤ (globalToLocal witnessFieldPoint witnessPanel).x := by
    norm_num [globalToLocal, witnessFieldPoint, witnessPanel]
  have h3 : (globalToLocal witnessFieldPoint witnessPanel).x ≤
      witnessPanel.length := by
    norm_num [globalToLocal, witnessFieldPoint, witnessPanel]
  exact ⟨h1, h2, h3,
    influence_on_panel_is_zero witnessFieldPoint witnessPanel 1 h1 h2 h3⟩

/-- Domain bounding box used by the tracer. -/
structure Bounds where
  xMin : ℝ
  xMax : ℝ
  yMin : ℝ
  yMax : ℝ

/-- Parameters of traceStreamline in stream.ts. -/
structure TraceParams where
  stepSize : ℝ
  maxSteps : ℕ
  bounds : Bounds
  minVelocity : ℝ

/-- Streamline from types.ts. -/
structure Streamline where
  points : List Point2D
  complete : Bool

/-- StreamlineField from types.ts. -/
structure StreamlineField where
  streamlines : List Streamline
  bounds : Bounds

/-- Parameters of generateStreamlineField in stream.ts. -/
structure StreamFieldParams where
  nStreamlines : ℕ
  stepSize : ℝ
  maxSteps : ℕ
  seedDistance : ℝ
  yRange : ℝ

/-- fieldVelocity from stream.ts: total velocity of the solved field. -/
noncomputable def fieldVelocity (point : Point2D) (geometry : AirfoilGeometry)
    (solution : PanelSolution) (flow : FlowConditions) : Vector2D :=
  totalVelocity point geometry.panels solution.sigma solution.gamma
    (freestreamOf flow)

open Classical in
/-- isInsideAirfoil from stream.ts: even-odd ray casting over the closed
point loop, visiting the edge pairs (0, n-1), (1, 0), ..., (n-1, n-2). -/
noncomputable def isInsideAirfoil (point : Point2D)
    (airfoilPoints : List Point2D) : Bool :=
  let n := airfoilPoints.length
  (List.range n).foldl (fun inside i =>
    let j := if i = 0 then n - 1 else i - 1
    let pA := airfoilPoints.getD i ⟨0, 0⟩
    let pB := airfoilPoints.getD j ⟨0, 0⟩
    if (¬((pA.y > point.y) ↔ (pB.y > point.y))) ∧
       point.x < (pB.x - pA.x) * (point.y - pA.y) / (pB.y - pA.y) + pA.x then
      !inside
    else inside) false

/-- Exit test of the tracer loop against the domain bounding box. -/
def outOfBounds (b : Bounds) (p : Point2D) : Prop :=
  p.x < b.xMin ∨ p.x > b.xMax ∨ p.y < b.yMin ∨ p.y > b.yMax

open Classical in
/-- Integration loop of traceStreamline in stream.ts: each iteration does
one RK2 midpoint step, checking speed, bounds and body entry at the
midpoint and at the full step; only a bounds exit sets the complete flag.
The returned list holds the points appended after the start point. -/
noncomputable def traceLoop (geometry : AirfoilGeometry)
    (solution : PanelSolution) (flow : FlowConditions) (params : TraceParams) :
    ℕ → Point2D → List Point2D × Bool
  | 0, _ => ([], false)
  | fuel + 1, currentPoint =>
    let vel1 := fieldVelocity currentPoint geometry solution flow
    let speed1 := Real.sqrt (vel1.x * vel1.x + vel1.y * vel1.y)
    if speed1 < params.minVelocity then ([], false)
    else
      let halfStep := params.stepSize / 2
      let midPoint : Point2D :=
        ⟨currentPoint.x + halfStep * vel1.x / speed1,
         currentPoint.y + halfStep * vel1.y / speed1⟩
      if outOfBounds params.bounds midPoint then ([], true)
      else if isInsideAirfoil midPoint geometry.points then ([], false)
      else
        let vel2 := fieldVelocity midPoint geometry solution flow
        let speed2 := Real.sqrt (vel2.x * vel2.x + vel2.y * vel2.y)
        if speed2 < params.minVelocity then ([], false)
        else
          let nextPoint : Point2D :=
            ⟨currentPoint.x + params.stepSize * vel2.x / speed2,
             currentPoint.y + params.stepSize * vel2.y / speed2⟩
          if outOfBounds params.bounds nextPoint then ([], true)
          else if isInsideAirfoil nextPoint geometry.points then ([], false)
          else
            let rest := traceLoop geometry solution flow params fuel nextPoint
            (nextPoint :: rest.1, rest.2)

open Classical in
/-- traceStreamline from stream.ts: a seed inside the body returns only the
start point with complete false, otherwise run the loop for maxSteps. -/
noncomputable def traceStreamline (startPoint : Point2D)
    (geometry : AirfoilGeometry) (solution : PanelSolution)
    (flow : FlowConditions) (params : TraceParams) : Streamline :=
  if isInsideAirfoil startPoint geometry.points then
    ⟨[startPoint], false⟩
  else
    let r := traceLoop geometry solution flow params params.maxSteps startPoint
    ⟨startPoint :: r.1, r.2⟩

/-- Modelled from the spec: the reason the tracer stopped, mirroring the
termination taxonomy of the state machine in the spec. -/
inductive TraceEnd where
  | seedInside
  | lowSpeedAtPoint
  | leftDomainMid
  | hitBodyMid
  | lowSpeedAtMid
  | leftDomainFull
  | hitBodyFull
  | stepCap
deriving DecidableEq

open Classical in
/-- Instrumented twin of the tracer loop that reports which branch ended
the integration. -/
noncomputable def traceEndLoop (geometry : AirfoilGeometry)
    (solution : PanelSolution) (flow : FlowConditions) (params : TraceParams) :
    ℕ → Point2D → TraceEnd
  | 0, _ => .stepCap
  | fuel + 1, currentPoint =>
    let vel1 := fieldVelocity currentPoint geometry solution flow
    let speed1 := Real.sqrt (vel1.x * vel1.x + vel1.y * vel1.y)
    if speed1 < params.minVelocity then .lowSpeedAtPoint
    else
      let halfStep := params.stepSize / 2
      let midPoint : Point2D :=
        ⟨currentPoint.x + halfStep * vel1.x / speed1,
         currentPoint.y + halfStep * vel1.y / speed1⟩
      if outOfBounds params.bounds midPoint then .leftDomainMid
      else if isInsideAirfoil midPoint geometry.points then .hitBodyMid
      else
        let vel2 := fieldVelocity midPoint geometry solution flow
        let speed2 := Real.sqrt (vel2.x * vel2.x + vel2.y * vel2.y)
        if speed2 < params.minVelocity then .lowSpeedAtMid
        else
          let nextPoint : Point2D :=
            ⟨currentPoint.x + params.stepSize * vel2.x / speed2,
             currentPoint.y + params.stepSize * vel2.y / speed2⟩
          if outOfBounds params.bounds nextPoint then .leftDomainFull
          else if isInsideAirfoil nextPoint geometry.points then .hitBodyFull
          else traceEndLoop geometry solution flow params fuel nextPoint

open Classical in
/-- Instrumented termination reason of a whole streamline trace. -/
noncomputable def traceEnd (startPoint : Point2D)
    (geometry : AirfoilGeometry) (solution : PanelSolution)
    (flow : FlowConditions) (params : TraceParams) : TraceEnd :=
  if isInsideAirfoil startPoint geometry.points then .seedInside
  else traceEndLoop geometry solution flow params params.maxSteps startPoint

/-- Bounding box computed by generateStreamlineField from the geometry and
the seeding parameters. -/
noncomputable def fieldBounds (geometry : AirfoilGeometry)
    (params : StreamFieldParams) : Bounds :=
  let xCoords := geometry.points.map Point2D.x
  let yCoords := geometry.points.map Point2D.y
  { xMin := xCoords.min?.getD 0 - params.seedDistance
  , xMax := xCoords.max?.getD 0 + params.seedDistance
  , yMin := yCoords.min?.getD 0 - params.yRange
  , yMax := yCoords.max?.getD 0 + params.yRange }

open Classical in
/-- generateStreamlineField from stream.ts: evenly spaced seeds on the
upstream vertical line, skipping seeds inside the body, tracing each with
minVelocity equal to one percent of the freestream speed, and keeping only
streamlines with more than five points. -/
noncomputable def generateStreamlineField (geometry : AirfoilGeometry)
    (solution : PanelSolution) (flow : FlowConditions)
    (params : StreamFieldParams) : StreamlineField :=
  let bounds := fieldBounds geometry params
  let seedX := bounds.xMin + params.seedDistance * 0.1
  let streamlines := (List.range params.nStreamlines).filterMap fun (i : ℕ) =>
    let t := (i : ℝ) / ((params.nStreamlines : ℝ) - 1)
    let seedY := bounds.yMin + t * (bounds.yMax - bounds.yMin)
    let startPoint : Point2D := ⟨seedX, seedY⟩
    if isInsideAirfoil startPoint geometry.points then none
    else
      let streamline := traceStreamline startPoint geometry solution flow
        { stepSize := params.stepSize, maxSteps := params.maxSteps
        , bounds := bounds, minVelocity := flow.velocity * 0.01 }
      if streamline.points.length > 5 then some streamline else none
  ⟨streamlines, bounds⟩

/-- The loop completes exactly when it exits through one of the two bounds
checks. -/
theorem traceLoop_complete_iff (geometry : AirfoilGeometry)
    (solution : PanelSolution) (flow : FlowConditions) (params : TraceParams) :
    ∀ (fuel : ℕ) (cur : Point2D),
      ((traceLoop geometry solution flow params fuel cur).2 = true ↔
        (traceEndLoop geometry solution flow params fuel cur = .leftDomainMid ∨
         traceEndLoop geometry solution flow params fuel cur = .leftDomainFull)) := by
  intro fuel
  induction fuel with
  | zero =>
    intro cur
    simp [traceLoop, traceEndLoop]
  | succ m ih =>
    intro cur
    rw [traceLoop, traceEndLoop]
    try dsimp only
    split_ifs with h1 h2 h3 h4 h5 h6
    · simp
    · simp
    · simp
    · simp
    · simp
    · simp
    · exact ih _

/-- Claim C7: traceStreamline (a total function in this embedding) marks a
streamline complete exactly when integration left the domain bounding box
at a midpoint or at a full-step point; a low-speed stop, a body entry, the
step cap, or a seed inside the body all yield complete false; and every
streamline produced by generateStreamlineField was traced with minVelocity
equal to one percent of the freestream speed over the computed bounds. -/
theorem traceStreamline_complete_iff :
    (∀ (startPoint : Point2D) (geometry : AirfoilGeometry)
       (solution : PanelSolution) (flow : FlowConditions)
       (params : TraceParams),
      ((traceStreamline startPoint geometry solution flow params).complete =
          true ↔
        (traceEnd startPoint geometry solution flow params = .leftDomainMid ∨
         traceEnd startPoint geometry solution flow params = .leftDomainFull))) ∧
    (∀ (geometry : AirfoilGeometry) (solution : PanelSolution)
       (flow : FlowConditions) (params : StreamFieldParams),
      (generateStreamlineField geometry solution flow params).streamlines.Forall
        fun sl => ∃ seed : Point2D,
          sl = traceStreamline seed geometry solution flow
            { stepSize := params.stepSize, maxSteps := params.maxSteps
            , bounds := fieldBounds geometry params
            , minVelocity := flow.velocity * 0.01 }) := by
  constructor
  · intro startPoint geometry solution flow params
    unfold traceStreamline traceEnd
    by_cases h : isInsideAirfoil startPoint geometry.points
    · simp [h]
    · simp only [h, Bool.false_eq_true, if_false]
      exact traceLoop_complete_iff geometry solution flow params
        params.maxSteps startPoint
  · intro geometry solution flow params
    rw [List.forall_iff_forall_mem]
    intro sl hmem
    unfold generateStreamlineField at hmem
    simp only [List.mem_filterMap, List.mem_range] at hmem
    obtain ⟨i, _, hEq⟩ := hmem
    split_ifs at hEq with hin hlen
    all_goals
      first
      | exact ⟨_, (Option.some.inj hEq).symm⟩
      | exact absurd hEq (by simp)

end Aeronauty
